import Mathlib

/-
Verification of the critter WebServer connection-lifecycle and dispatch
engine (src/include/critter/webserver.h), as a shallow embedding.

Machine I/O is modelled by explicit event lists: each read on a socket is a
ReadEvent (a parsed request, a clean end-of-stream, or a transport error),
and each write attempt consumes a Bool saying whether the transport accepted
it.  Exceptions are modelled by explicit outcome/result types.
-/

namespace Critter

/-- HTTP verbs (the subset of boost::beast::http::verb the server touches). -/
inductive Verb where
  | get
  | post
  | put
  | head
  | options
  | patch
  deriving Repr, DecidableEq

/-- An HTTP request as seen by do_session: method, target path, version,
keep-alive flag, and whether websocket::is_upgrade(req) holds (the request
carries a protocol-upgrade signal).  The body plays no role in dispatch. -/
structure Request where
  method : Verb
  target : String
  version : Nat
  keepAlive : Bool
  upgrade : Bool
  body : String
  deriving Repr, DecidableEq

/-- An HTTP response: status code (as its numeric value, e.g. 404 for
http::status::not_found), version, the Server header, content type,
keep-alive flag and body. -/
structure Response where
  status : Nat
  version : Nat
  server : String
  contentType : String
  keepAlive : Bool
  body : String
  deriving Repr, DecidableEq

/-- critter::HttpException: carries an http status code and a message;
what() returns the message (it derives std::runtime_error(message)). -/
structure HttpException where
  code : Nat
  message : String
  deriving Repr, DecidableEq

/-- Outcome of invoking an HttpHandler, modelling C++ exception behaviour:
it returns a Response, throws an HttpException, throws some other
std::exception whose what() is the given string, or throws a value that is
not a std::exception at all. -/
inductive HandlerOutcome where
  | success (r : Response)
  | httpError (e : HttpException)
  | stdError (what : String)
  | unknownError

/-- A WebSocket handler (detail::WebSocketHandler) is never invoked by the
dispatch logic modelled here, only stored and selected; an opaque token
suffices. -/
abbrev WsHandler := Nat

/-- The two-variant handler stored per route (std::variant of
detail::HttpHandler and detail::WebSocketHandler). -/
inductive Handler where
  | httpH (f : Request → HandlerOutcome)
  | wsH (h : WsHandler)

/-- Modelled from the spec: detail::Registry route entries
(src/include/critter/detail/registry.h is absent from src/).  A route is a
(method, path-pattern, handler) binding; the pattern is abstracted to a
predicate on the full path (the source uses a regex). -/
structure Route where
  method : Verb
  pattern : String → Bool
  handler : Handler

/-- Modelled from the spec: the Registry is the insertion-ordered route
list. -/
abbrev Registry := List Route

/-- Result of Registry::get: the bound handler of the first matching route,
or the NotFound signal. -/
inductive GetResult where
  | found (h : Handler)
  | notFound

/-- Modelled from the spec: Registry::get tries routes in insertion order; a
route matches when its method equals the request method and its pattern
matches the full path; the first match wins; no match signals NotFound. -/
def Registry.get : Registry → Verb → String → GetResult
  | [], _, _ => GetResult.notFound
  | r :: rest, m, path =>
    if r.method = m ∧ r.pattern path then GetResult.found r.handler
    else Registry.get rest m path

/-- Modelled from the spec: Registry::add appends a route, preserving
insertion order. -/
def registryAdd (reg : Registry) (v : Verb) (p : String → Bool)
    (h : Handler) : Registry :=
  reg ++ [⟨v, p, h⟩]

/-- WebServer::add_ws_handler: registers the WebSocket handler under the GET
verb. -/
def add_ws_handler (reg : Registry) (p : String → Bool) (f : WsHandler) :
    Registry :=
  registryAdd reg Verb.get p (Handler.wsH f)

/-- WebServer::add_http_handler: registers an HTTP handler under the given
verb. -/
def add_http_handler (reg : Registry) (v : Verb) (p : String → Bool)
    (f : Request → HandlerOutcome) : Registry :=
  registryAdd reg v p (Handler.httpH f)

/-- The BOOST_BEAST_VERSION_STRING constant placed in the Server header of
engine-synthesized responses; its exact text is irrelevant here. -/
def beastVersionString : String := "Boost.Beast"

/-- The single-quote character, written by code point to keep the sources
plain. -/
def squote : String := "\x27"

/-- what() of std::bad_variant_access, thrown by std::get on the wrong
variant alternative; its exact text is implementation-defined. -/
def badVariantWhat : String := "bad variant access"

/-- WebServer::not_found: synthesizes the 404 response for an unmatched
request (status not_found, Server header, content-type text/html, the
request keep-alive flag, and a body naming the target). -/
def not_found (req : Request) : Response :=
  { status := 404
    version := req.version
    server := beastVersionString
    contentType := "text/html"
    keepAlive := req.keepAlive
    body := "The resource " ++ squote ++ req.target ++ squote
              ++ " was not found." }

/-- WebServer::exception_response: synthesizes the response for a caught
HttpException (its code, Server header, content-type text/html, the request
keep-alive flag, and e.what() as body). -/
def exception_response (req : Request) (e : HttpException) : Response :=
  { status := e.code
    version := req.version
    server := beastVersionString
    contentType := "text/html"
    keepAlive := req.keepAlive
    body := e.message }

/-- What one loop iteration of do_session decides for a successfully read
request: a response to write, a hand-off to a WebSocket session, or an
exception escaping do_session uncaught. -/
inductive DispatchResult where
  | respond (r : Response)
  | upgradeWs
  | uncaught

/-- The dispatch logic of one do_session iteration (webserver.h lines
163-194): look the handler up (NotFound is caught and becomes not_found);
when the request signals an upgrade, std::get the WebSocketHandler — on an
HTTP route this throws bad_variant_access, which no enclosing catch handles;
otherwise std::get the HttpHandler and invoke it, translating an
HttpException to exception_response, any other std::exception to
HttpException(500, e.what()), and anything else to
HttpException(500, "unhandled exception").  std::get on a WebSocket route
without an upgrade signal throws bad_variant_access inside the inner try,
hence becomes HttpException(500, what()). -/
def dispatchReq (reg : Registry) (req : Request) : DispatchResult :=
  match Registry.get reg req.method req.target with
  | GetResult.notFound => DispatchResult.respond (not_found req)
  | GetResult.found h =>
    if req.upgrade then
      match h with
      | Handler.wsH _ => DispatchResult.upgradeWs
      | Handler.httpH _ => DispatchResult.uncaught
    else
      match h with
      | Handler.wsH _ =>
          DispatchResult.respond (exception_response req ⟨500, badVariantWhat⟩)
      | Handler.httpH f =>
        match f req with
        | HandlerOutcome.success r => DispatchResult.respond r
        | HandlerOutcome.httpError e =>
            DispatchResult.respond (exception_response req e)
        | HandlerOutcome.stdError w =>
            DispatchResult.respond (exception_response req ⟨500, w⟩)
        | HandlerOutcome.unknownError =>
            DispatchResult.respond
              (exception_response req ⟨500, "unhandled exception"⟩)

/-- One read on the connection: a parsed request, a clean peer end-of-stream
(ec == http::error::end_of_stream), or any other read error. -/
inductive ReadEvent where
  | success (req : Request)
  | eos
  | failure
  deriving Repr, DecidableEq

/-- How a modelled do_session run ends and what it did: how many requests
were successfully read, the responses successfully written in order, whether
it ended on a failed write or a failed read, whether the socket was handed
to a WebSocket session, whether an exception escaped uncaught, whether the
final socket.shutdown(shutdown_send) half-close ran, and whether the session
is still suspended waiting for input. -/
structure SessionResult where
  requestsRead : Nat
  writes : List Response
  writeFailed : Bool
  readFailed : Bool
  upgraded : Bool
  crashed : Bool
  shutdown : Bool
  blocked : Bool
  deriving Repr, DecidableEq

/-- Whether the next write attempt succeeds (an exhausted list means the
transport keeps accepting writes). -/
def writeOk : List Bool → Bool
  | [] => true
  | b :: _ => b

/-- The write-outcome list after consuming one attempt. -/
def writeRest : List Bool → List Bool
  | [] => []
  | _ :: rest => rest

/-- WebServer::do_session (webserver.h lines 146-208) over an explicit list
of read events and write outcomes.  Per iteration: read (end_of_stream
breaks to the shutdown; any other read error returns without shutdown);
dispatch; on an upgrade hand the socket off and return; on an uncaught
exception the coroutine aborts; otherwise write the response (a write error
returns without shutdown), then break to the shutdown when the response is
not keep-alive, else loop. -/
def do_session (reg : Registry) : List ReadEvent → List Bool → SessionResult
  | [], _ =>
    { requestsRead := 0, writes := [], writeFailed := false
      readFailed := false, upgraded := false, crashed := false
      shutdown := false, blocked := true }
  | ReadEvent.eos :: _, _ =>
    { requestsRead := 0, writes := [], writeFailed := false
      readFailed := false, upgraded := false, crashed := false
      shutdown := true, blocked := false }
  | ReadEvent.failure :: _, _ =>
    { requestsRead := 0, writes := [], writeFailed := false
      readFailed := true, upgraded := false, crashed := false
      shutdown := false, blocked := false }
  | ReadEvent.success req :: rest, wfs =>
    match dispatchReq reg req with
    | DispatchResult.upgradeWs =>
      { requestsRead := 1, writes := [], writeFailed := false
        readFailed := false, upgraded := true, crashed := false
        shutdown := false, blocked := false }
    | DispatchResult.uncaught =>
      { requestsRead := 1, writes := [], writeFailed := false
        readFailed := false, upgraded := false, crashed := true
        shutdown := false, blocked := false }
    | DispatchResult.respond r =>
      if writeOk wfs then
        if r.keepAlive then
          let t := do_session reg rest (writeRest wfs)
          { requestsRead := t.requestsRead + 1, writes := r :: t.writes
            writeFailed := t.writeFailed, readFailed := t.readFailed
            upgraded := t.upgraded, crashed := t.crashed
            shutdown := t.shutdown, blocked := t.blocked }
        else
          { requestsRead := 1, writes := [r], writeFailed := false
            readFailed := false, upgraded := false, crashed := false
            shutdown := true, blocked := false }
      else
        { requestsRead := 1, writes := [], writeFailed := true
          readFailed := false, upgraded := false, crashed := false
          shutdown := false, blocked := false }

/-- A session run that did not end in plain per-request order: the socket
was handed to a WebSocket session, the last write failed at the transport,
or an exception escaped; in each such run exactly the last read request got
no written response. -/
def abnormalEnd (res : SessionResult) : Bool :=
  res.upgraded || res.writeFailed || res.crashed

/-- Prepends one written response to a session tail: after a successful
write of a keep-alive response, the loop continues on the same connection
and the rest of the run is the session over the remaining events. -/
def sessionCons (r : Response) (t : SessionResult) : SessionResult :=
  { t with requestsRead := t.requestsRead + 1, writes := r :: t.writes }

/-- The error a failed acceptor setup step raises
(boost::system::system_error, tagged by which step failed). -/
inductive SetupError where
  | openError
  | bindError
  | listenError
  deriving Repr, DecidableEq

/-- Which of the three acceptor setup calls (open, bind, listen) fail for
the configured endpoint in the current environment. -/
structure ListenEnv where
  openFails : Bool
  bindFails : Bool
  listenFails : Bool
  deriving Repr, DecidableEq

/-- The setup phase of WebServer::do_listen (webserver.h lines 215-233):
open the acceptor, bind, listen, each throwing
boost::system::system_error(ec) on error.  The accept loop that follows
never throws (accept errors are logged via fail and the loop continues), so
the setup phase is the sole error source of the coroutine. -/
def do_listen_setup (env : ListenEnv) : Except SetupError Unit :=
  if env.openFails then Except.error SetupError.openError
  else if env.bindFails then Except.error SetupError.bindError
  else if env.listenFails then Except.error SetupError.listenError
  else Except.ok ()

/-- A unit of work posted to the io_context; the constructor posts exactly
the do_listen coroutine. -/
inductive IocTask where
  | listenTask (env : ListenEnv)
  deriving Repr, DecidableEq

/-- The io_context, reduced to its queue of posted-but-not-yet-run work. -/
structure Ioc where
  queue : List IocTask
  deriving Repr, DecidableEq

/-- boost::asio::spawn(ioc, f): posts the coroutine to the io_context; the
coroutine body does not run inside spawn — it first runs when some thread
runs the io_context. -/
def spawn (ioc : Ioc) (t : IocTask) : Ioc :=
  { queue := ioc.queue ++ [t] }

/-- The WebServer constructor (webserver.h lines 47-58): its only actions
are computing the wildcard address and spawning do_listen on the io_context.
Neither can throw for the fixed "::" literal, so construction always
succeeds, returning the io_context with the listen coroutine still queued;
Except gives a failing construction room to be expressed, were there one. -/
def webServerConstruct (env : ListenEnv) : Except SetupError Ioc :=
  Except.ok (spawn { queue := [] } (IocTask.listenTask env))

/-- Running one posted task; an exception it throws propagates out of
io_context::run on whichever thread runs it. -/
def runTask : IocTask → Except SetupError Unit
  | IocTask.listenTask env => do_listen_setup env

/-- io_context::run, as called by WebServer::run or by each thread
WebServer::start launches: runs the queued work; the first escaping
exception propagates to the caller of run. -/
def iocRun : List IocTask → Except SetupError Unit
  | [] => Except.ok ()
  | t :: rest => do
      runTask t
      iocRun rest

/-- A live WebSocket session handle
(std::shared_ptr of detail::WebSocketSession); identity (pointer equality)
is what add/remove compare, so an opaque token models it. -/
abbrev Session := Nat

/-- WebServer::add (webserver.h lines 251-255): push_back on the session
vector, under the mutex. -/
def wsAdd (st : List Session) (s : Session) : List Session :=
  st ++ [s]

/-- WebServer::remove (webserver.h lines 257-262): the erase-remove idiom on
the session vector under the mutex — every element equal (by shared_ptr
identity) to the given session is dropped, all others kept in order. -/
def wsRemove : List Session → Session → List Session
  | [], _ => []
  | x :: rest, s => if x = s then wsRemove rest s else x :: wsRemove rest s

/-- WebServer::get_ws_sessions (webserver.h lines 99-103): under the mutex,
return the vector by value — an independent copy of the collection as it is
at the instant of the call. -/
def get_ws_sessions (st : List Session) : List Session :=
  st

/-- One operation on the WebSocket session registry, as serialized by the
mutex: an add, a remove, or a get_ws_sessions snapshot read. -/
inductive WsOp where
  | addOp (s : Session)
  | removeOp (s : Session)
  | snapshotOp
  deriving Repr, DecidableEq

/-- The registry state after one serialized operation (a snapshot read
leaves it unchanged). -/
def applyOp (st : List Session) : WsOp → List Session
  | WsOp.addOp s => wsAdd st s
  | WsOp.removeOp s => wsRemove st s
  | WsOp.snapshotOp => st

/-- The registry state after a serialized sequence of operations. -/
def stateAfter (ops : List WsOp) (st : List Session) : List Session :=
  ops.foldl applyOp st

/-- The values the snapshot reads in a serialized operation sequence
return, in order. -/
def snapshots : List WsOp → List Session → List (List Session)
  | [], _ => []
  | WsOp.snapshotOp :: rest, st => get_ws_sessions st :: snapshots rest st
  | op :: rest, st => snapshots rest (applyOp st op)

/-- Concrete inputs used to instantiate the theorems below. -/
def reqMissing : Request :=
  { method := Verb.get, target := "/missing", version := 11
    keepAlive := true, upgrade := false, body := "" }

/-- A handler that raises HttpException(403, "forbidden"). -/
def forbiddenHandler : Request → HandlerOutcome :=
  fun _ => HandlerOutcome.httpError ⟨403, "forbidden"⟩

/-- A registry serving /hello with the forbidden-raising handler. -/
def regForbidden : Registry :=
  add_http_handler [] Verb.get (fun p => p == "/hello") forbiddenHandler

/-- A plain GET /hello request without an upgrade signal. -/
def reqHello : Request :=
  { method := Verb.get, target := "/hello", version := 11
    keepAlive := true, upgrade := false, body := "" }

/-- A handler that raises a std::exception whose what() is "boom". -/
def boomHandler : Request → HandlerOutcome :=
  fun _ => HandlerOutcome.stdError "boom"

/-- A registry serving /hello with the boom-raising handler. -/
def regBoom : Registry :=
  add_http_handler [] Verb.get (fun p => p == "/hello") boomHandler

/-- A registry with one WebSocket route on /ws (registered through
add_ws_handler, hence under GET). -/
def regWs : Registry :=
  add_ws_handler [] (fun p => p == "/ws") 0

/-- A plain GET /ws request without an upgrade signal. -/
def reqWsPlain : Request :=
  { method := Verb.get, target := "/ws", version := 11
    keepAlive := true, upgrade := false, body := "" }

/-- C3: a request whose (method, target) matches no registered route gets
the engine-synthesized 404: dispatch responds with not_found(req), whose
status is 404, content type text/html, keep-alive the request's own flag,
and body exactly "The resource '<target>' was not found." -/
theorem unmatched_request_yields_not_found (reg : Registry) (req : Request)
    (h : Registry.get reg req.method req.target = GetResult.notFound) :
    dispatchReq reg req = DispatchResult.respond (not_found req)
    ∧ (not_found req).status = 404
    ∧ (not_found req).contentType = "text/html"
    ∧ (not_found req).keepAlive = req.keepAlive
    ∧ (not_found req).body
        = "The resource " ++ squote ++ req.target ++ squote
            ++ " was not found." := by
  refine ⟨?_, rfl, rfl, rfl, rfl⟩
  unfold dispatchReq
  rw [h]

/-- Witness for C3: the empty registry matches nothing, so GET /missing
yields the 404 with the target named in the body. -/
theorem unmatched_request_yields_not_found_witness :
    dispatchReq [] reqMissing = DispatchResult.respond (not_found reqMissing)
    ∧ (not_found reqMissing).status = 404
    ∧ (not_found reqMissing).contentType = "text/html"
    ∧ (not_found reqMissing).keepAlive = reqMissing.keepAlive
    ∧ (not_found reqMissing).body
        = "The resource " ++ squote ++ reqMissing.target ++ squote
            ++ " was not found." :=
  unmatched_request_yields_not_found [] reqMissing rfl

/-- C4: a handler invocation failing with HttpException e yields
exception_response(req, e), whose status is exactly e.code and whose body is
exactly e.message (the what() text), keep-alive taken from the request. -/
theorem application_error_maps_to_status_and_body (reg : Registry)
    (req : Request) (f : Request → HandlerOutcome) (e : HttpException)
    (hupg : req.upgrade = false)
    (hget : Registry.get reg req.method req.target
              = GetResult.found (Handler.httpH f))
    (hf : f req = HandlerOutcome.httpError e) :
    dispatchReq reg req = DispatchResult.respond (exception_response req e)
    ∧ (exception_response req e).status = e.code
    ∧ (exception_response req e).body = e.message
    ∧ (exception_response req e).keepAlive = req.keepAlive := by
  refine ⟨?_, rfl, rfl, rfl⟩
  simp [dispatchReq, hget, hupg, hf]

/-- Witness for C4: a handler raising HttpException(403, "forbidden") on
GET /hello yields a response with status 403 and body "forbidden". -/
theorem application_error_maps_to_status_and_body_witness :
    dispatchReq regForbidden reqHello
      = DispatchResult.respond (exception_response reqHello ⟨403, "forbidden"⟩)
    ∧ (exception_response reqHello ⟨403, "forbidden"⟩).status = 403
    ∧ (exception_response reqHello ⟨403, "forbidden"⟩).body = "forbidden"
    ∧ (exception_response reqHello ⟨403, "forbidden"⟩).keepAlive
        = reqHello.keepAlive :=
  application_error_maps_to_status_and_body regForbidden reqHello
    forbiddenHandler ⟨403, "forbidden"⟩ rfl rfl rfl

/-- The body do_session gives a non-HttpException handler failure: the
what() text of a std::exception, or "unhandled exception" for anything
else; none for outcomes that are not unclassified failures. -/
def unclassifiedBody : HandlerOutcome → Option String
  | HandlerOutcome.stdError w => some w
  | HandlerOutcome.unknownError => some "unhandled exception"
  | _ => none

/-- C5: a handler invocation failing with anything other than an
HttpException yields a response with status 500 whose body is the failure's
what() text when it is a std::exception and "unhandled exception"
otherwise. -/
theorem unclassified_failure_maps_to_500 (reg : Registry) (req : Request)
    (f : Request → HandlerOutcome) (w : String)
    (hupg : req.upgrade = false)
    (hget : Registry.get reg req.method req.target
              = GetResult.found (Handler.httpH f))
    (hw : unclassifiedBody (f req) = some w) :
    dispatchReq reg req
      = DispatchResult.respond (exception_response req ⟨500, w⟩)
    ∧ (exception_response req ⟨500, w⟩).status = 500
    ∧ (exception_response req ⟨500, w⟩).body = w := by
  refine ⟨?_, rfl, rfl⟩
  cases hf : f req with
  | success r => simp [unclassifiedBody, hf] at hw
  | httpError e => simp [unclassifiedBody, hf] at hw
  | stdError w0 =>
    simp only [unclassifiedBody, hf, Option.some.injEq] at hw
    subst hw
    simp [dispatchReq, hget, hupg, hf]
  | unknownError =>
    simp only [unclassifiedBody, hf, Option.some.injEq] at hw
    subst hw
    simp [dispatchReq, hget, hupg, hf]

/-- Witness for C5: a handler raising a std::exception with what() "boom"
on GET /hello yields a response with status 500 and body "boom". -/
theorem unclassified_failure_maps_to_500_witness :
    dispatchReq regBoom reqHello
      = DispatchResult.respond (exception_response reqHello ⟨500, "boom"⟩)
    ∧ (exception_response reqHello ⟨500, "boom"⟩).status = 500
    ∧ (exception_response reqHello ⟨500, "boom"⟩).body = "boom" :=
  unclassified_failure_maps_to_500 regBoom reqHello boomHandler "boom"
    rfl rfl rfl

/-- C9: WebServer::remove is identity-based and idempotent: it deletes
exactly the occurrences of the given session (the erase-remove idiom equals
a filter on inequality), removing twice equals removing once, and removing
an absent session leaves the collection unchanged. -/
theorem ws_remove_identity_idempotent (st : List Session) (s : Session) :
    wsRemove st s = st.filter (fun x => x != s)
    ∧ wsRemove (wsRemove st s) s = wsRemove st s
    ∧ (s ∉ st → wsRemove st s = st) := by
  refine ⟨?_, ?_, ?_⟩
  · induction st with
    | nil => rfl
    | cons a t ih =>
      by_cases h : a = s
      · simp [wsRemove, h, ih]
      · simp [wsRemove, h, ih]
  · induction st with
    | nil => rfl
    | cons a t ih =>
      by_cases h : a = s
      · simp [wsRemove, h, ih]
      · simp [wsRemove, h, ih]
  · induction st with
    | nil => intro _; rfl
    | cons a t ih =>
      intro h
      rw [List.mem_cons] at h
      push_neg at h
      obtain ⟨h1, h2⟩ := h
      have ha : ¬a = s := fun hh => h1 hh.symm
      simp [wsRemove, ha, ih h2]

/-- Witness for C9 at the registry [1, 2] and the absent session 3: the
filter characterization, idempotence, and the no-op on absence all hold
concretely. -/
theorem ws_remove_identity_idempotent_witness :
    wsRemove [1, 2] 3 = [1, 2].filter (fun x => x != 3)
    ∧ wsRemove (wsRemove [1, 2] 3) 3 = wsRemove [1, 2] 3
    ∧ wsRemove [1, 2] 3 = [1, 2] := by
  have h := ws_remove_identity_idempotent [1, 2] 3
  exact ⟨h.1, h.2.1, h.2.2 (by decide)⟩

/-- C10: a request without an upgrade signal that resolves to a WebSocket
route (such routes are registered only under GET by add_ws_handler) does
not reach the handler: std::get on the HttpHandler alternative throws
bad_variant_access inside the inner try, which is classified as an
unclassified failure, so the engine responds with status 500 — not 404 and
not 400. -/
theorem non_upgrade_on_ws_route_yields_500 (reg : Registry) (req : Request)
    (g : WsHandler) (p : String → Bool)
    (hupg : req.upgrade = false)
    (hget : Registry.get reg req.method req.target
              = GetResult.found (Handler.wsH g)) :
    dispatchReq reg req
      = DispatchResult.respond (exception_response req ⟨500, badVariantWhat⟩)
    ∧ (exception_response req ⟨500, badVariantWhat⟩).status = 500
    ∧ (add_ws_handler reg p g).map Route.method
        = reg.map Route.method ++ [Verb.get] := by
  refine ⟨?_, rfl, ?_⟩
  · simp [dispatchReq, hget, hupg]
  · simp [add_ws_handler, registryAdd]

/-- Witness for C10: a plain (non-upgrade) GET /ws against the registry
holding one WebSocket route yields the 500 response. -/
theorem non_upgrade_on_ws_route_yields_500_witness :
    dispatchReq regWs reqWsPlain
      = DispatchResult.respond
          (exception_response reqWsPlain ⟨500, badVariantWhat⟩)
    ∧ (exception_response reqWsPlain ⟨500, badVariantWhat⟩).status = 500
    ∧ (add_ws_handler regWs (fun p => p == "/ws2") 1).map Route.method
        = regWs.map Route.method ++ [Verb.get] :=
  non_upgrade_on_ws_route_yields_500 regWs reqWsPlain 0
    (fun p => p == "/ws2") rfl rfl

/-- C6: keep-alive policy.  Both engine-synthesized responses carry the
originating request's keep-alive flag; and for any response do_session
decides to write, after a successful write the session halts with the
shutdown when the response's keep-alive flag is false, and loops back to
read the next request on the same connection when it is true. -/
theorem keep_alive_policy (reg : Registry) (req : Request)
    (e : HttpException) (rest : List ReadEvent) (wfs : List Bool)
    (r : Response)
    (hr : dispatchReq reg req = DispatchResult.respond r) :
    (not_found req).keepAlive = req.keepAlive
    ∧ (exception_response req e).keepAlive = req.keepAlive
    ∧ (r.keepAlive = false →
        do_session reg (ReadEvent.success req :: rest) (true :: wfs)
          = { requestsRead := 1, writes := [r], writeFailed := false
              readFailed := false, upgraded := false, crashed := false
              shutdown := true, blocked := false })
    ∧ (r.keepAlive = true →
        do_session reg (ReadEvent.success req :: rest) (true :: wfs)
          = sessionCons r (do_session reg rest wfs)) := by
  refine ⟨rfl, rfl, ?_, ?_⟩
  · intro hka
    simp [do_session, hr, writeOk, writeRest, hka]
  · intro hka
    simp [do_session, hr, writeOk, writeRest, hka, sessionCons]

/-- Witness for C6: the unmatched GET /hello (keep-alive true) on the empty
registry yields the 404 carrying keep-alive true, and the session loops
back for another read after writing it. -/
theorem keep_alive_policy_witness :
    (not_found reqHello).keepAlive = reqHello.keepAlive
    ∧ (exception_response reqHello ⟨500, "boom"⟩).keepAlive
        = reqHello.keepAlive
    ∧ do_session [] [ReadEvent.success reqHello] [true]
        = sessionCons (not_found reqHello) (do_session [] [] []) := by
  have h := keep_alive_policy [] reqHello ⟨500, "boom"⟩ [] [] (not_found reqHello) rfl
  exact ⟨h.1, h.2.1, h.2.2.2 rfl⟩

/-- C7 (amended): a read failure other than a clean end-of-stream makes
do_session return at once — no response is written, but the final
socket.shutdown(shutdown_send) half-close is NOT performed (the early
return skips it); only the clean end-of-stream path (and the keep-alive
close) reaches the half-close. -/
theorem read_failure_returns_without_halfclose (reg : Registry)
    (rest : List ReadEvent) (wfs : List Bool) :
    do_session reg (ReadEvent.failure :: rest) wfs
      = { requestsRead := 0, writes := [], writeFailed := false
          readFailed := true, upgraded := false, crashed := false
          shutdown := false, blocked := false }
    ∧ do_session reg (ReadEvent.eos :: rest) wfs
      = { requestsRead := 0, writes := [], writeFailed := false
          readFailed := false, upgraded := false, crashed := false
          shutdown := true, blocked := false } :=
  ⟨rfl, rfl⟩

/-- Counterexample to C7 as stated: at the concrete input of a single
failing read, the session writes no response but performs no half-close
(shutdown = false), while the clean end-of-stream path at the same point
does perform it (shutdown = true) — the two paths do not share the closing
half-close. -/
theorem read_failure_skips_shutdown :
    (do_session [] [ReadEvent.failure] []).writes = []
    ∧ (do_session [] [ReadEvent.failure] []).shutdown = false
    ∧ (do_session [] [ReadEvent.eos] []).shutdown = true :=
  ⟨rfl, rfl, rfl⟩

/-- C8: get_ws_sessions is a point-in-time copy: in any serialized
operation sequence, the value a snapshot read returns is exactly the
registry content at the instant of the call (hence of the same size), an
expression independent of whatever add/remove operations follow it. -/
theorem snapshot_is_point_in_time_copy (ops1 ops2 : List WsOp)
    (st0 : List Session) :
    snapshots (ops1 ++ WsOp.snapshotOp :: ops2) st0
      = snapshots ops1 st0
          ++ get_ws_sessions (stateAfter ops1 st0)
              :: snapshots ops2 (stateAfter ops1 st0)
    ∧ (get_ws_sessions (stateAfter ops1 st0)).length
        = (stateAfter ops1 st0).length := by
  refine ⟨?_, rfl⟩
  induction ops1 generalizing st0 with
  | nil => rfl
  | cons op rest ih =>
    cases op with
    | addOp s => simpa [snapshots, stateAfter, applyOp] using ih (applyOp st0 (WsOp.addOp s))
    | removeOp s => simpa [snapshots, stateAfter, applyOp] using ih (applyOp st0 (WsOp.removeOp s))
    | snapshotOp => simpa [snapshots, stateAfter, applyOp] using ih st0

/-- C2 (amended): the WebServer constructor only posts the do_listen
coroutine to the io_context and always returns normally; an open, bind or
listen failure is not swallowed — it surfaces as the system_error escaping
io_context::run (i.e. the blocking run() call or a worker thread started by
start()), tagged with the first failing step. -/
theorem listen_setup_failure_surfaces_from_run (env : ListenEnv) :
    webServerConstruct env
      = Except.ok { queue := [IocTask.listenTask env] }
    ∧ (iocRun [IocTask.listenTask env] = Except.ok ()
        ↔ env.openFails = false ∧ env.bindFails = false
            ∧ env.listenFails = false)
    ∧ (env.openFails = true →
        iocRun [IocTask.listenTask env]
          = Except.error SetupError.openError)
    ∧ (env.openFails = false → env.bindFails = true →
        iocRun [IocTask.listenTask env]
          = Except.error SetupError.bindError)
    ∧ (env.openFails = false → env.bindFails = false →
        env.listenFails = true →
        iocRun [IocTask.listenTask env]
          = Except.error SetupError.listenError) := by
  obtain ⟨o, b, l⟩ := env
  refine ⟨rfl, ?_, ?_, ?_, ?_⟩ <;>
    cases o <;> cases b <;> cases l <;>
      simp [iocRun, runTask, do_listen_setup, bind, Except.bind]

/-- The environment in which opening the acceptor fails. -/
def envOpenFails : ListenEnv :=
  { openFails := true, bindFails := false, listenFails := false }

/-- Witness for C2 (amended): when open fails, running the io_context
surfaces the open error. -/
theorem listen_setup_failure_surfaces_from_run_witness :
    iocRun [IocTask.listenTask envOpenFails]
      = Except.error SetupError.openError :=
  (listen_setup_failure_surfaces_from_run envOpenFails).2.2.1 rfl

/-- Counterexample to C2 as stated: with an endpoint whose open fails, the
constructor still succeeds — it returns the io_context with the listen
coroutine merely queued, raising nothing — and the failure is raised only
later, out of io_context::run. -/
theorem construction_succeeds_despite_setup_failure :
    webServerConstruct envOpenFails
      = Except.ok { queue := [IocTask.listenTask envOpenFails] }
    ∧ iocRun [IocTask.listenTask envOpenFails]
      = Except.error SetupError.openError :=
  ⟨rfl, rfl⟩

/-- Every response dispatch decides to write is engine-shaped: the 404, an
exception_response (application error, std::exception wrap, or the unknown
or variant-access wrap), or the value a matched HTTP handler returned. -/
theorem dispatch_respond_shape (reg : Registry) (req : Request)
    (r : Response)
    (h : dispatchReq reg req = DispatchResult.respond r) :
    r = not_found req
    ∨ (∃ e, r = exception_response req e)
    ∨ (∃ f, Registry.get reg req.method req.target
              = GetResult.found (Handler.httpH f)
        ∧ f req = HandlerOutcome.success r) := by
  cases hg : Registry.get reg req.method req.target with
  | notFound =>
    have hx : dispatchReq reg req = DispatchResult.respond (not_found req) := by
      simp [dispatchReq, hg]
    rw [hx] at h
    injection h with h2
    exact Or.inl h2.symm
  | found hd =>
    cases hu : req.upgrade with
    | true =>
      cases hd with
      | wsH g =>
        have hx : dispatchReq reg req = DispatchResult.upgradeWs := by
          simp [dispatchReq, hg, hu]
        rw [hx] at h
        cases h
      | httpH f =>
        have hx : dispatchReq reg req = DispatchResult.uncaught := by
          simp [dispatchReq, hg, hu]
        rw [hx] at h
        cases h
    | false =>
      cases hd with
      | wsH g =>
        have hx : dispatchReq reg req
            = DispatchResult.respond
                (exception_response req ⟨500, badVariantWhat⟩) := by
          simp [dispatchReq, hg, hu]
        rw [hx] at h
        injection h with h2
        exact Or.inr (Or.inl ⟨⟨500, badVariantWhat⟩, h2.symm⟩)
      | httpH f =>
        cases hf : f req with
        | success r0 =>
          have hx : dispatchReq reg req = DispatchResult.respond r0 := by
            simp [dispatchReq, hg, hu, hf]
          rw [hx] at h
          injection h with h2
          exact Or.inr (Or.inr ⟨f, rfl, by rw [hf, h2]⟩)
        | httpError e =>
          have hx : dispatchReq reg req
              = DispatchResult.respond (exception_response req e) := by
            simp [dispatchReq, hg, hu, hf]
          rw [hx] at h
          injection h with h2
          exact Or.inr (Or.inl ⟨e, h2.symm⟩)
        | stdError w =>
          have hx : dispatchReq reg req
              = DispatchResult.respond (exception_response req ⟨500, w⟩) := by
            simp [dispatchReq, hg, hu, hf]
          rw [hx] at h
          injection h with h2
          exact Or.inr (Or.inl ⟨⟨500, w⟩, h2.symm⟩)
        | unknownError =>
          have hx : dispatchReq reg req
              = DispatchResult.respond
                  (exception_response req ⟨500, "unhandled exception"⟩) := by
            simp [dispatchReq, hg, hu, hf]
          rw [hx] at h
          injection h with h2
          exact Or.inr (Or.inl ⟨⟨500, "unhandled exception"⟩, h2.symm⟩)

/-- Bookkeeping for the session loop: the number of successful writes,
plus one exactly when the run ended abnormally (upgrade hand-off, failed
write, or escaped exception), equals the number of successfully read
requests; and every written response came out of dispatch. -/
theorem session_write_accounting (reg : Registry) (reads : List ReadEvent)
    (wfs : List Bool) :
    (do_session reg reads wfs).writes.length
        + (if abnormalEnd (do_session reg reads wfs) then 1 else 0)
      = (do_session reg reads wfs).requestsRead
    ∧ ∀ r ∈ (do_session reg reads wfs).writes,
        ∃ req, dispatchReq reg req = DispatchResult.respond r := by
  induction reads generalizing wfs with
  | nil =>
    refine ⟨by simp [do_session, abnormalEnd], ?_⟩
    intro r hr
    simp [do_session] at hr
  | cons ev rest ih =>
    cases ev with
    | eos =>
      refine ⟨by simp [do_session, abnormalEnd], ?_⟩
      intro r hr
      simp [do_session] at hr
    | failure =>
      refine ⟨by simp [do_session, abnormalEnd], ?_⟩
      intro r hr
      simp [do_session] at hr
    | success req =>
      cases hd : dispatchReq reg req with
      | upgradeWs =>
        refine ⟨by simp [do_session, hd, abnormalEnd], ?_⟩
        intro r hr
        simp [do_session, hd] at hr
      | uncaught =>
        refine ⟨by simp [do_session, hd, abnormalEnd], ?_⟩
        intro r hr
        simp [do_session, hd] at hr
      | respond r0 =>
        cases hwo : writeOk wfs with
        | false =>
          refine ⟨by simp [do_session, hd, hwo, abnormalEnd], ?_⟩
          intro r hr
          simp [do_session, hd, hwo] at hr
        | true =>
          cases hka : r0.keepAlive with
          | false =>
            refine ⟨by simp [do_session, hd, hwo, hka, abnormalEnd], ?_⟩
            intro r hr
            simp [do_session, hd, hwo, hka] at hr
            exact ⟨req, hr ▸ hd⟩
          | true =>
            obtain ⟨ih1, ih2⟩ := ih (writeRest wfs)
            refine ⟨?_, ?_⟩
            · simp only [do_session, hd, hwo, hka, if_true, abnormalEnd,
                List.length_cons] at ih1 ⊢
              cases habn : ((do_session reg rest (writeRest wfs)).upgraded
                  || (do_session reg rest (writeRest wfs)).writeFailed
                  || (do_session reg rest (writeRest wfs)).crashed) <;>
                simp [habn] at ih1 ⊢ <;> omega
            · intro r hr
              simp only [do_session, hd, hwo, hka, if_true] at hr
              rcases List.mem_cons.mp hr with h1 | h1
              · exact ⟨req, h1 ▸ hd⟩
              · exact ih2 r h1

/-- C1 (amended): per session run, every successfully read request gets
exactly one written response — with three exceptions, each costing exactly
the final request its response: the socket is handed to a WebSocket session
(step 3b, after which no further HTTP responses are written), the response
write fails at the transport, or the request carries an upgrade signal yet
resolves to an HTTP route, where the variant access throws uncaught and the
session aborts.  Every response written is well-formed: the 404, an error
response, or the matched handler's own response. -/
theorem session_one_response_per_request (reg : Registry)
    (reads : List ReadEvent) (wfs : List Bool) :
    (do_session reg reads wfs).writes.length
        + (if abnormalEnd (do_session reg reads wfs) then 1 else 0)
      = (do_session reg reads wfs).requestsRead
    ∧ ∀ r ∈ (do_session reg reads wfs).writes,
        ∃ req : Request,
          r = not_found req
          ∨ (∃ e, r = exception_response req e)
          ∨ (∃ f, Registry.get reg req.method req.target
                    = GetResult.found (Handler.httpH f)
              ∧ f req = HandlerOutcome.success r) := by
  obtain ⟨h1, h2⟩ := session_write_accounting reg reads wfs
  refine ⟨h1, ?_⟩
  intro r hr
  obtain ⟨req, hreq⟩ := h2 r hr
  exact ⟨req, dispatch_respond_shape reg req r hreq⟩

/-- The fixed {200, "world"} response of the spec's example scenario. -/
def worldResponse : Response :=
  { status := 200, version := 11, server := "", contentType := "text/html"
    keepAlive := false, body := "world" }

/-- A handler returning the world response. -/
def worldHandler : Request → HandlerOutcome :=
  fun _ => HandlerOutcome.success worldResponse

/-- A registry serving GET /hello with the world handler. -/
def regWorld : Registry :=
  add_http_handler [] Verb.get (fun p => p == "/hello") worldHandler

/-- Witness for C1: one read GET /hello against regWorld writes exactly one
response, and that response is the handler's own. -/
theorem session_one_response_per_request_witness :
    (do_session regWorld [ReadEvent.success reqHello] []).writes.length
        + (if abnormalEnd (do_session regWorld [ReadEvent.success reqHello] [])
            then 1 else 0)
      = (do_session regWorld [ReadEvent.success reqHello] []).requestsRead
    ∧ ∃ req : Request,
        worldResponse = not_found req
        ∨ (∃ e, worldResponse = exception_response req e)
        ∨ (∃ f, Registry.get regWorld req.method req.target
                  = GetResult.found (Handler.httpH f)
            ∧ f req = HandlerOutcome.success worldResponse) := by
  obtain ⟨h1, h2⟩ :=
    session_one_response_per_request regWorld [ReadEvent.success reqHello] []
  exact ⟨h1, h2 worldResponse (by decide)⟩

/-- A GET /hello request that carries a WebSocket upgrade signal. -/
def reqHelloUpgrade : Request :=
  { method := Verb.get, target := "/hello", version := 11
    keepAlive := true, upgrade := true, body := "" }

/-- Counterexample to C1 as stated: an upgrade-signaling request matching
the HTTP route /hello is successfully read (requestsRead = 1), is never
dispatched to a WebSocket session (upgraded = false), and its write never
fails (writeFailed = false), yet zero responses are written: the
std::get of the WebSocketHandler throws bad_variant_access outside every
catch and the session aborts (crashed = true). -/
theorem upgrade_request_on_http_route_gets_no_response :
    (do_session regWorld [ReadEvent.success reqHelloUpgrade] []).requestsRead
      = 1
    ∧ (do_session regWorld [ReadEvent.success reqHelloUpgrade] []).upgraded
      = false
    ∧ (do_session regWorld [ReadEvent.success reqHelloUpgrade] []).writeFailed
      = false
    ∧ (do_session regWorld [ReadEvent.success reqHelloUpgrade] []).writes
      = []
    ∧ (do_session regWorld [ReadEvent.success reqHelloUpgrade] []).crashed
      = true := by
  refine ⟨rfl, rfl, rfl, rfl, rfl⟩

end Critter
